import Mathlib

/-
Shallow embedding of src/src/services/flow_captcha_service.py
(class FlowCaptchaService) from the flow2api repository.

JSON values produced by response.json() are modelled by JValue; JSON
numbers are modelled as integers (no claim involves fractional upstream
values).  The pricing constant uses exact rationals for the fixed float
literals.  Python exceptions raised by solve are modelled by the
SolveException type: valueError for the ValueError configuration
failures, runtimeError for the RuntimeError transport/upstream failures
(carrying the full message string, service prefix included), and
attributeError for the unguarded attribute access on a non-mapping
solution value.  The network is modelled as an oracle from the outgoing
JSON payload to a transport result, so that independence from the
network is expressible as quantification over the oracle.
-/

namespace FlowCaptcha

/-- A Python value decoded from JSON: None, bool, int, str, list, dict. -/
inductive JValue where
  | jnull : JValue
  | jbool (b : Bool) : JValue
  | jnum (n : Int) : JValue
  | jstr (s : String) : JValue
  | jarr (xs : List JValue) : JValue
  | jobj (fields : List (String × JValue)) : JValue

/-- Python truthiness of a JSON-decoded value. -/
def truthy : JValue → Bool
  | .jnull => false
  | .jbool b => b
  | .jnum n => n != 0
  | .jstr s => s != ""
  | .jarr xs => !xs.isEmpty
  | .jobj fs => !fs.isEmpty

/-- Python `a or b` on JSON-decoded values: a if truthy, else b. -/
def pyOr (a b : JValue) : JValue := if truthy a then a else b

/-- Python `d.get(k)` on a dict: the value if the key is present, else None. -/
def jGet (fields : List (String × JValue)) (k : String) : JValue :=
  match List.lookup k fields with
  | some v => v
  | none => .jnull

/-- Whether a value is a Python dict (isinstance(v, dict)). -/
def JValue.isDict : JValue → Bool
  | .jobj _ => true
  | _ => false

def squote : Char := Char.ofNat 39

def dquote : Char := Char.ofNat 34

/-- The ASCII whitespace characters removed by Python str.strip(). -/
def isPySpace (c : Char) : Bool :=
  c = ' ' ∨ c = Char.ofNat 9 ∨ c = Char.ofNat 10 ∨ c = Char.ofNat 13
    ∨ c = Char.ofNat 11 ∨ c = Char.ofNat 12

/-- Python str.strip(): remove leading and trailing whitespace. -/
def pyStrip (s : String) : String :=
  ⟨(((s.data.dropWhile isPySpace).reverse).dropWhile isPySpace).reverse⟩

/-- Python s[:n]: the first n characters of s. -/
def pySlice (s : String) (n : Nat) : String :=
  ⟨s.data.take n⟩

/-- Escape backslashes and the delimiter quote, as Python repr does. -/
def escapeFor (q : Char) (s : String) : String :=
  s.data.foldl
    (fun acc c =>
      if c = '\\' ∨ c = q then (acc.push '\\').push c else acc.push c)
    ""

/-- Python repr of a str: single quotes by default, double quotes when the
string contains a single quote but no double quote.  Control-character
escaping is not modelled (no claim exercises it). -/
def pyReprString (s : String) : String :=
  if s.data.contains squote ∧ ¬ s.data.contains dquote then
    ((String.singleton dquote) ++ escapeFor dquote s).push dquote
  else
    ((String.singleton squote) ++ escapeFor squote s).push squote

mutual

/-- Python repr of a JSON-decoded value. -/
def pyRepr : JValue → String
  | .jnull => "None"
  | .jbool b => if b then "True" else "False"
  | .jnum n => toString n
  | .jstr s => pyReprString s
  | .jarr xs => ("[" ++ pyReprList xs) ++ "]"
  | .jobj fs => ("\x7b" ++ pyReprFields fs) ++ "\x7d"

def pyReprList : List JValue → String
  | [] => ""
  | [x] => pyRepr x
  | x :: rest => (pyRepr x ++ ", ") ++ pyReprList rest

def pyReprFields : List (String × JValue) → String
  | [] => ""
  | [(k, v)] => (pyReprString k ++ ": ") ++ pyRepr v
  | (k, v) :: rest => (((pyReprString k ++ ": ") ++ pyRepr v) ++ ", ") ++ pyReprFields rest

end

/-- Python str() of a JSON-decoded value: identity on str, repr otherwise. -/
def pyStr : JValue → String
  | .jstr s => s
  | v => pyRepr v

/-- Parse an optional sign followed by digits, as Python int(str) does
(after stripping whitespace); underscore digit grouping is not modelled. -/
def parseIntCore (s : String) : Option Int :=
  let core (digits : List Char) : Option Int :=
    if digits ≠ [] ∧ digits.all Char.isDigit then
      some (digits.foldl (fun acc c => acc * 10 + (Int.ofNat (c.toNat - 48))) 0)
    else none
  match s.data with
  | '-' :: rest => (core rest).map Int.neg
  | '+' :: rest => core rest
  | chars => core chars

/-- FlowCaptchaService._to_int: best-effort conversion with a default. -/
def pyToInt (v : JValue) (default : Int) : Int :=
  match v with
  | .jnull => default
  | .jbool b => if b then 1 else 0
  | .jnum n => n
  | .jstr s =>
    match parseIntCore (pyStrip s) with
    | some n => n
    | none => default
  | .jarr _ => default
  | .jobj _ => default

/-- Python truthiness of an Optional[str]: false for None and for the
empty string. -/
def optTruthy : Option String → Bool
  | none => false
  | some s => s != ""

/-- The string held by an Optional[str], empty when absent (x or ""). -/
def optVal : Option String → String
  | none => ""
  | some s => s

/-- FlowCaptchaService.SERVICE_NAME. -/
def SERVICE_NAME : String := "Flow-RecaptchaV3TaskProxylessM1"

/-- FlowCaptchaService.TASK_TYPE. -/
def TASK_TYPE : String := "RecaptchaV3TaskProxylessM1"

/-- FlowCaptchaService.PROVIDER. -/
def PROVIDER : String := "browser"

/-- The fixed tariff record FlowCaptchaService.PRICING; the Python float
literals 15.0 and 0.015 are modelled as exact rationals (they are never
computed with). -/
structure Pricing where
  currency : String
  price_per_1000_tasks : ℚ
  price_per_task : ℚ
  points_per_task : ℚ
deriving DecidableEq

def PRICING : Pricing :=
  { currency := "CNY"
    price_per_1000_tasks := 15
    price_per_task := (15 : ℚ) / 1000
    points_per_task := 15 }

/-- The constant FlowCaptchaService.FLOW_PROJECT_URL_PREFIX of the source:
the fixed head prepended to project_id when resolving the website url. -/
def FLOW_PROJECT_URL_HEAD : String := "https://labs.google/fx/tools/flow/project/"

/-- The dict returned by a successful solve call. -/
structure SolveResult where
  name : String
  object : String
  provider : String
  page_action : String
  token : JValue
  duration_ms : Int
  browser_id : Int
  task_type : String
  pricing : Pricing

/-- The configuration collaborator (..core.config.config); each string
field may be unset (None). timeout_seconds does not affect any claim. -/
structure Config where
  flow_captcha_service_base_url : Option String
  flow_captcha_service_solve_path : Option String
  flow_captcha_service_api_key : Option String

/-- The Python exceptions solve can raise: ValueError for configuration,
RuntimeError (full message, prefix included) for transport and upstream
failures, AttributeError for the unguarded .get on a non-dict solution. -/
inductive SolveException where
  | valueError (msg : String) : SolveException
  | runtimeError (msg : String) : SolveException
  | attributeError : SolveException
deriving DecidableEq

/-- Whether response.json() succeeds; on failure the raw text is kept. -/
inductive BodyResult where
  | parsed (response_json : List (String × JValue)) : BodyResult
  | unparsed (text : String) : BodyResult

/-- Outcome of the POST: the session raised (failure, carrying str(e)),
or a response arrived with a status code and a body. -/
inductive TransportResult where
  | failure (msg : String) : TransportResult
  | response (status : Nat) (body : BodyResult) : TransportResult

/-- FlowCaptchaService._extract_error_message. -/
def extract_error_message (response_json : List (String × JValue)) : String :=
  match jGet response_json "error" with
  | .jobj err =>
      pyStr (pyOr (jGet err "message") (pyOr (jGet err "error") (.jobj response_json)))
  | .jstr s => s
  | _ =>
      match jGet response_json "message" with
      | .jstr m => m
      | _ => pyStr (.jobj response_json)

/-- The lazily evaluated or-chain of token candidates in solve:
token or gRecaptchaResponse or g_recaptcha_response or
solution-with-default-empty-dict .get gRecaptchaResponse.  The last step
raises AttributeError when solution is present but not a dict. -/
def extractToken (response_json : List (String × JValue)) :
    Except SolveException JValue :=
  if truthy (jGet response_json "token") then .ok (jGet response_json "token")
  else if truthy (jGet response_json "gRecaptchaResponse") then
    .ok (jGet response_json "gRecaptchaResponse")
  else if truthy (jGet response_json "g_recaptcha_response") then
    .ok (jGet response_json "g_recaptcha_response")
  else
    match List.lookup "solution" response_json with
    | none => .ok .jnull
    | some (.jobj fs) => .ok (jGet fs "gRecaptchaResponse")
    | some _ => .error .attributeError

/-- The resolved website url of solve: trimmed website_url, or the fixed
project url head concatenated with project_id when that is empty and
project_id is truthy. -/
def resolveWebsiteUrl (project_id website_url : Option String) : String :=
  let resolved := pyStrip (optVal website_url)
  if resolved = "" ∧ optTruthy project_id then
    FLOW_PROJECT_URL_HEAD ++ optVal project_id
  else resolved

/-- The outgoing JSON payload of solve: page_action always, project_id
when truthy, website_url when the resolved value is non-empty. -/
def buildPayload (project_id website_url : Option String) (page_action : String) :
    List (String × JValue) :=
  [("page_action", JValue.jstr page_action)]
    ++ (if optTruthy project_id then [("project_id", JValue.jstr (optVal project_id))] else [])
    ++ (if resolveWebsiteUrl project_id website_url ≠ "" then
          [("website_url", JValue.jstr (resolveWebsiteUrl project_id website_url))] else [])

/-- FlowCaptchaService.solve.  The transport oracle maps the outgoing
payload to what the network did; config reading, trimming, the ordered
configuration checks, payload construction, and response classification
follow the source line by line. -/
def solve (cfg : Config) (project_id website_url : Option String)
    (page_action : String)
    (transport : List (String × JValue) → TransportResult) :
    Except SolveException SolveResult :=
  let base_url := pyStrip (Option.getD cfg.flow_captcha_service_base_url "")
  let solve_path := pyStrip (Option.getD cfg.flow_captcha_service_solve_path "")
  let api_key := pyStrip (Option.getD cfg.flow_captcha_service_api_key "")
  if base_url = "" then
    .error (.valueError "FlowCaptchaServiceBaseURL is not configured")
  else if solve_path = "" then
    .error (.valueError "FlowCaptchaServiceSolvePath is not configured")
  else if api_key = "" then
    .error (.valueError "FlowCaptchaServiceApiKey is not configured")
  else
    match transport (buildPayload project_id website_url page_action) with
    | .failure msg =>
        .error (.runtimeError ("flow captcha service error: request failed: " ++ msg))
    | .response status body =>
        match body with
        | .unparsed text =>
            .error (.runtimeError
              (("flow captcha service error: invalid json response (status="
                  ++ toString status ++ "): ") ++ pySlice text 200))
        | .parsed response_json =>
            if status ≥ 400 then
              .error (.runtimeError
                (("flow captcha service error: upstream status "
                    ++ toString status ++ ": ") ++ extract_error_message response_json))
            else if (jGet response_json "error").isDict then
              .error (.runtimeError
                ("flow captcha service error: " ++ extract_error_message response_json))
            else
              match extractToken response_json with
              | .error e => .error e
              | .ok token =>
                  if ¬ truthy token then
                    .error (.runtimeError
                      "flow captcha service error: missing token in upstream response")
                  else
                    .ok { name := SERVICE_NAME
                          object := "captcha.solution"
                          provider := PROVIDER
                          page_action := page_action
                          token := token
                          duration_ms := pyToInt (jGet response_json "duration_ms") 0
                          browser_id := pyToInt (jGet response_json "browser_id") 0
                          task_type := TASK_TYPE
                          pricing := PRICING }

/-- FlowCaptchaService.get_token: shortcut on a falsy project_id, else
delegate to solve with website_url unset and return the token field of
the result dict (always present on success). -/
def get_token (cfg : Config) (project_id : Option String) (page_action : String)
    (transport : List (String × JValue) → TransportResult) :
    Except SolveException (Option JValue) :=
  if ¬ optTruthy project_id then .ok none
  else
    match solve cfg project_id none page_action transport with
    | .error e => .error e
    | .ok result => .ok (some result.token)

/-- The ordered token candidates as the spec lists them: token,
gRecaptchaResponse, g_recaptcha_response, then the gRecaptchaResponse
sub-field of a solution mapping (None when solution is absent or not a
mapping; the code instead raises on a present non-mapping, see the
safety claim). -/
def tokenCandidates (body : List (String × JValue)) : List JValue :=
  [jGet body "token", jGet body "gRecaptchaResponse", jGet body "g_recaptcha_response",
    match List.lookup "solution" body with
    | some (.jobj fs) => jGet fs "gRecaptchaResponse"
    | _ => .jnull]

/-- The first truthy value of a candidate list. -/
def firstTruthy (xs : List JValue) : Option JValue := xs.find? truthy

/-- The error-message extraction policy as the spec words it: if the
error field is a mapping use its message sub-field, else its error
sub-field, else the stringified whole body; if the error field is a
string use it directly; else a string-typed top-level message field;
else the stringified whole body. -/
def specErrorMessage (body : List (String × JValue)) : String :=
  match jGet body "error" with
  | .jobj err =>
      if truthy (jGet err "message") then pyStr (jGet err "message")
      else if truthy (jGet err "error") then pyStr (jGet err "error")
      else pyStr (.jobj body)
  | .jstr s => s
  | _ =>
      match jGet body "message" with
      | .jstr m => m
      | _ => pyStr (.jobj body)

/-- A fully configured service, used to instantiate the theorems. -/
def cfgOK : Config :=
  { flow_captcha_service_base_url := some "https://captcha.example"
    flow_captcha_service_solve_path := some "/solve"
    flow_captcha_service_api_key := some "k" }

theorem solve_eq_of_parsed (cfg : Config) (pid w : Option String) (pa : String)
    (transport : List (String × JValue) → TransportResult) (status : Nat)
    (body : List (String × JValue))
    (hb : pyStrip (Option.getD cfg.flow_captcha_service_base_url "") ≠ "")
    (hs : pyStrip (Option.getD cfg.flow_captcha_service_solve_path "") ≠ "")
    (hk : pyStrip (Option.getD cfg.flow_captcha_service_api_key "") ≠ "")
    (ht : transport (buildPayload pid w pa) = .response status (.parsed body)) :
    solve cfg pid w pa transport =
      if status ≥ 400 then
        .error (.runtimeError
          (("flow captcha service error: upstream status "
              ++ toString status ++ ": ") ++ extract_error_message body))
      else if (jGet body "error").isDict then
        .error (.runtimeError
          ("flow captcha service error: " ++ extract_error_message body))
      else
        match extractToken body with
        | .error e => .error e
        | .ok token =>
            if ¬ truthy token then
              .error (.runtimeError
                "flow captcha service error: missing token in upstream response")
            else
              .ok { name := SERVICE_NAME
                    object := "captcha.solution"
                    provider := PROVIDER
                    page_action := pa
                    token := token
                    duration_ms := pyToInt (jGet body "duration_ms") 0
                    browser_id := pyToInt (jGet body "browser_id") 0
                    task_type := TASK_TYPE
                    pricing := PRICING } := by
  simp only [solve]
  rw [if_neg hb, if_neg hs, if_neg hk, ht]

theorem solve_eq_of_unparsed (cfg : Config) (pid w : Option String) (pa : String)
    (transport : List (String × JValue) → TransportResult) (status : Nat)
    (text : String)
    (hb : pyStrip (Option.getD cfg.flow_captcha_service_base_url "") ≠ "")
    (hs : pyStrip (Option.getD cfg.flow_captcha_service_solve_path "") ≠ "")
    (hk : pyStrip (Option.getD cfg.flow_captcha_service_api_key "") ≠ "")
    (ht : transport (buildPayload pid w pa) = .response status (.unparsed text)) :
    solve cfg pid w pa transport =
      .error (.runtimeError
        (("flow captcha service error: invalid json response (status="
            ++ toString status ++ "): ") ++ pySlice text 200)) := by
  simp only [solve]
  rw [if_neg hb, if_neg hs, if_neg hk, ht]

theorem solve_eq_of_failure (cfg : Config) (pid w : Option String) (pa : String)
    (transport : List (String × JValue) → TransportResult) (msg : String)
    (hb : pyStrip (Option.getD cfg.flow_captcha_service_base_url "") ≠ "")
    (hs : pyStrip (Option.getD cfg.flow_captcha_service_solve_path "") ≠ "")
    (hk : pyStrip (Option.getD cfg.flow_captcha_service_api_key "") ≠ "")
    (ht : transport (buildPayload pid w pa) = .failure msg) :
    solve cfg pid w pa transport =
      .error (.runtimeError ("flow captcha service error: request failed: " ++ msg)) := by
  simp only [solve]
  rw [if_neg hb, if_neg hs, if_neg hk, ht]

theorem extractToken_error_eq (body : List (String × JValue)) (e : SolveException)
    (h : extractToken body = .error e) : e = .attributeError := by
  unfold extractToken at h
  repeat' split at h
  all_goals first
    | (injection h with h1; exact h1.symm)
    | exact absurd h (by simp)

theorem extract_error_message_eq_spec (body : List (String × JValue)) :
    extract_error_message body = specErrorMessage body := by
  unfold extract_error_message specErrorMessage
  cases hv : jGet body "error" with
  | jobj err =>
      by_cases t1 : truthy (jGet err "message") = true
      · simp [pyOr, t1]
      · by_cases t2 : truthy (jGet err "error") = true
        · simp [pyOr, t1, t2]
        · simp [pyOr, t1, t2]
  | jstr s => rfl
  | jnull => rfl
  | jbool b => rfl
  | jnum n => rfl
  | jarr xs => rfl

theorem extractToken_firstTruthy (body : List (String × JValue))
    (hsol : ∀ v, List.lookup "solution" body = some v → v.isDict = true) :
    (∀ v, firstTruthy (tokenCandidates body) = some v →
        extractToken body = .ok v ∧ truthy v = true) ∧
    (firstTruthy (tokenCandidates body) = none →
        ∃ u, extractToken body = .ok u ∧ truthy u = false) := by
  unfold firstTruthy tokenCandidates extractToken
  by_cases t1 : truthy (jGet body "token") = true
  · constructor
    · intro v hv
      simp [List.find?, t1] at hv
      subst hv
      exact ⟨by simp [t1], t1⟩
    · intro hv
      simp [List.find?, t1] at hv
  · by_cases t2 : truthy (jGet body "gRecaptchaResponse") = true
    · constructor
      · intro v hv
        simp [List.find?, t1, t2] at hv
        subst hv
        exact ⟨by simp [t1, t2], t2⟩
      · intro hv
        simp [List.find?, t1, t2] at hv
    · by_cases t3 : truthy (jGet body "g_recaptcha_response") = true
      · constructor
        · intro v hv
          simp [List.find?, t1, t2, t3] at hv
          subst hv
          exact ⟨by simp [t1, t2, t3], t3⟩
        · intro hv
          simp [List.find?, t1, t2, t3] at hv
      · cases hls : List.lookup "solution" body with
        | none =>
            have hjn : truthy JValue.jnull = false := rfl
            constructor
            · intro v hv
              simp [List.find?, t1, t2, t3, hls, hjn] at hv
            · intro hv
              exact ⟨.jnull, by simp [t1, t2, t3, hls], rfl⟩
        | some v =>
            have hd := hsol v hls
            cases v with
            | jobj fs =>
                by_cases t4 : truthy (jGet fs "gRecaptchaResponse") = true
                · constructor
                  · intro u hu
                    simp [List.find?, t1, t2, t3, hls, t4] at hu
                    subst hu
                    exact ⟨by simp [t1, t2, t3, hls], t4⟩
                  · intro hu
                    simp [List.find?, t1, t2, t3, hls, t4] at hu
                · constructor
                  · intro u hu
                    simp [List.find?, t1, t2, t3, hls, t4] at hu
                  · intro hu
                    exact ⟨jGet fs "gRecaptchaResponse",
                      by simp [t1, t2, t3, hls], by simpa using t4⟩
            | jnull => simp [JValue.isDict] at hd
            | jbool b => simp [JValue.isDict] at hd
            | jnum n => simp [JValue.isDict] at hd
            | jstr s => simp [JValue.isDict] at hd
            | jarr xs => simp [JValue.isDict] at hd

/-- Claim C3: the three required configuration strings are checked after
whitespace trimming in the exact order base_url, solve_path, api_key,
before any network request (the result does not depend on the transport
oracle), and the first empty one determines a ConfigurationError naming
that field exactly. -/
theorem C3_ordered_config_checks (cfg : Config) (pid w : Option String) (pa : String) :
    (pyStrip (Option.getD cfg.flow_captcha_service_base_url "") = "" →
      ∀ transport, solve cfg pid w pa transport =
        .error (.valueError "FlowCaptchaServiceBaseURL is not configured")) ∧
    (pyStrip (Option.getD cfg.flow_captcha_service_base_url "") ≠ "" →
      pyStrip (Option.getD cfg.flow_captcha_service_solve_path "") = "" →
      ∀ transport, solve cfg pid w pa transport =
        .error (.valueError "FlowCaptchaServiceSolvePath is not configured")) ∧
    (pyStrip (Option.getD cfg.flow_captcha_service_base_url "") ≠ "" →
      pyStrip (Option.getD cfg.flow_captcha_service_solve_path "") ≠ "" →
      pyStrip (Option.getD cfg.flow_captcha_service_api_key "") = "" →
      ∀ transport, solve cfg pid w pa transport =
        .error (.valueError "FlowCaptchaServiceApiKey is not configured")) := by
  refine ⟨?_, ?_, ?_⟩
  · intro hb transport
    simp only [solve]
    rw [if_pos hb]
  · intro hb hs transport
    simp only [solve]
    rw [if_neg hb, if_pos hs]
  · intro hb hs hk transport
    simp only [solve]
    rw [if_neg hb, if_neg hs, if_pos hk]

theorem C3_ordered_config_checks_witness :
    solve { flow_captcha_service_base_url := some "  ",
            flow_captcha_service_solve_path := some "s",
            flow_captcha_service_api_key := some "k" }
        none none "A" (fun _ => .failure "net")
      = .error (.valueError "FlowCaptchaServiceBaseURL is not configured") ∧
    solve { flow_captcha_service_base_url := some "b",
            flow_captcha_service_solve_path := none,
            flow_captcha_service_api_key := some "k" }
        none none "A" (fun _ => .failure "net")
      = .error (.valueError "FlowCaptchaServiceSolvePath is not configured") ∧
    solve { flow_captcha_service_base_url := some "b",
            flow_captcha_service_solve_path := some "s",
            flow_captcha_service_api_key := some "" }
        none none "A" (fun _ => .failure "net")
      = .error (.valueError "FlowCaptchaServiceApiKey is not configured") :=
  ⟨(C3_ordered_config_checks _ none none "A").1 (by decide) _,
   (C3_ordered_config_checks _ none none "A").2.1 (by decide) (by decide) _,
   (C3_ordered_config_checks _ none none "A").2.2 (by decide) (by decide) (by decide) _⟩

/-- Claim C6: the effective website url is the trimmed websiteUrl, or the
fixed project-url head concatenated with projectId when the trimmed value
is empty and projectId is present; the payload always holds page_action,
holds project_id exactly when projectId is truthy, holds website_url
exactly when the resolved value is non-empty, and absent optional fields
are missing keys, never null or empty values. -/
theorem C6_payload_shape (pid w : Option String) (pa : String) :
    resolveWebsiteUrl pid w =
      (if pyStrip (optVal w) = "" ∧ optTruthy pid = true then
        FLOW_PROJECT_URL_HEAD ++ optVal pid
      else pyStrip (optVal w)) ∧
    List.lookup "page_action" (buildPayload pid w pa) = some (.jstr pa) ∧
    List.lookup "project_id" (buildPayload pid w pa) =
      (if optTruthy pid = true then some (.jstr (optVal pid)) else none) ∧
    List.lookup "website_url" (buildPayload pid w pa) =
      (if resolveWebsiteUrl pid w = "" then none
       else some (.jstr (resolveWebsiteUrl pid w))) := by
  refine ⟨rfl, ?_, ?_, ?_⟩ <;>
    by_cases hp : optTruthy pid = true <;>
    by_cases hw : resolveWebsiteUrl pid w = "" <;>
    simp [buildPayload, hp, hw, List.lookup]

/-- Claim C5: the name, object, provider, task_type and pricing fields of
every successful result are the fixed constants, page_action echoes the
caller, and on upstream body with token T1 and HTTP 200 the result is the
fully determined record with duration_ms 0 and browser_id 0. -/
theorem C5_fixed_result_fields :
    (∀ cfg pid w pa transport r, solve cfg pid w pa transport = Except.ok r →
      r.name = SERVICE_NAME ∧ r.object = "captcha.solution" ∧
      r.provider = PROVIDER ∧ r.task_type = TASK_TYPE ∧
      r.pricing = PRICING ∧ r.page_action = pa) ∧
    solve cfgOK (some "p1") none "IMAGE_GENERATION"
        (fun _ => .response 200 (.parsed [("token", .jstr "T1")]))
      = .ok { name := SERVICE_NAME
              object := "captcha.solution"
              provider := PROVIDER
              page_action := "IMAGE_GENERATION"
              token := .jstr "T1"
              duration_ms := 0
              browser_id := 0
              task_type := TASK_TYPE
              pricing := PRICING } := by
  constructor
  · intro cfg pid w pa transport r h
    simp only [solve] at h
    repeat' split at h
    all_goals first
      | exact Except.noConfusion h
      | (injection h with h1; rw [← h1]; exact ⟨rfl, rfl, rfl, rfl, rfl, rfl⟩)
  · rfl

theorem C5_fixed_result_fields_witness :
    SolveResult.name { name := SERVICE_NAME
                       object := "captcha.solution"
                       provider := PROVIDER
                       page_action := "IMAGE_GENERATION"
                       token := .jstr "T1"
                       duration_ms := 0
                       browser_id := 0
                       task_type := TASK_TYPE
                       pricing := PRICING } = SERVICE_NAME :=
  (C5_fixed_result_fields.1 cfgOK (some "p1") none "IMAGE_GENERATION"
    (fun _ => .response 200 (.parsed [("token", .jstr "T1")])) _ rfl).1

/-- Claim C8: get_token on an absent or empty projectId returns none with
no error, for every configuration and every transport oracle (so with no
network call and no configuration check); on a non-empty projectId it
delegates to solve with website_url unset and returns the token field of
the result. -/
theorem C8_get_token_shortcut (cfg : Config) (pid : Option String) (pa : String)
    (transport : List (String × JValue) → TransportResult) :
    (optTruthy pid = false → get_token cfg pid pa transport = .ok none) ∧
    (optTruthy pid = true →
      get_token cfg pid pa transport =
        match solve cfg pid none pa transport with
        | .error e => .error e
        | .ok r => .ok (some r.token)) := by
  constructor
  · intro h
    simp [get_token, h]
  · intro h
    simp [get_token, h]

theorem C8_get_token_shortcut_witness :
    get_token { flow_captcha_service_base_url := none,
                flow_captcha_service_solve_path := none,
                flow_captcha_service_api_key := none }
        none "A" (fun _ => .failure "net") = .ok none ∧
    get_token cfgOK (some "") "A" (fun _ => .failure "net") = .ok none ∧
    get_token cfgOK (some "p1") "A"
        (fun _ => .response 200 (.parsed [("token", .jstr "T1")]))
      = .ok (some (.jstr "T1")) :=
  ⟨(C8_get_token_shortcut _ none "A" _).1 rfl,
   (C8_get_token_shortcut cfgOK (some "") "A" _).1 rfl,
   ((C8_get_token_shortcut cfgOK (some "p1") "A" _).2 rfl).trans rfl⟩

/-- Claim C1, counterexample: on HTTP 200 with body holding a string
error field rate_limited, solve does not fail with message rate_limited;
the string-valued error is not treated as a logical failure (only a
mapping is), so solve reaches token extraction and fails with the
missing-token message instead. -/
theorem C1_counterexample :
    solve cfgOK (some "p1") none "IMAGE_GENERATION"
        (fun _ => .response 200 (.parsed [("error", .jstr "rate_limited")]))
      = .error (.runtimeError
          "flow captcha service error: missing token in upstream response") ∧
    "flow captcha service error: missing token in upstream response"
      ≠ "rate_limited" ∧
    "flow captcha service error: missing token in upstream response"
      ≠ "flow captcha service error: rate_limited" :=
  ⟨rfl, by decide, by decide⟩

/-- Claim C1, amended: for every 2xx response whose parsed body is the
single string-valued error field, solve does not treat it as a logical
failure; it proceeds to token extraction and fails with the missing-token
UpstreamError (full message prefixed with the service prefix). -/
theorem C1_string_error_not_logical (cfg : Config) (pid w : Option String)
    (pa s : String) (transport : List (String × JValue) → TransportResult)
    (status : Nat)
    (hb : pyStrip (Option.getD cfg.flow_captcha_service_base_url "") ≠ "")
    (hs : pyStrip (Option.getD cfg.flow_captcha_service_solve_path "") ≠ "")
    (hk : pyStrip (Option.getD cfg.flow_captcha_service_api_key "") ≠ "")
    (hstatus : 200 ≤ status ∧ status ≤ 299)
    (ht : transport (buildPayload pid w pa)
        = .response status (.parsed [("error", JValue.jstr s)])) :
    solve cfg pid w pa transport =
      .error (.runtimeError
        "flow captcha service error: missing token in upstream response") := by
  rw [solve_eq_of_parsed cfg pid w pa transport status _ hb hs hk ht]
  rw [if_neg (by omega)]
  rfl

theorem C1_string_error_not_logical_witness :
    solve cfgOK (some "p2") none "A"
        (fun _ => .response 204 (.parsed [("error", JValue.jstr "quota")]))
      = .error (.runtimeError
          "flow captcha service error: missing token in upstream response") :=
  C1_string_error_not_logical cfgOK (some "p2") none "A" "quota" _ 204
    (by decide) (by decide) (by decide) (by omega) rfl

/-- Claim C2: on a 2xx parsed body whose error field is not a mapping
(and whose solution field, when present, is a mapping), the result token
is the first truthy candidate among token, gRecaptchaResponse,
g_recaptcha_response, then the gRecaptchaResponse sub-field of the
solution mapping; when no candidate is truthy, solve fails with the
missing-token UpstreamError. -/
theorem C2_ordered_token_extraction (cfg : Config) (pid w : Option String)
    (pa : String) (transport : List (String × JValue) → TransportResult)
    (status : Nat) (body : List (String × JValue))
    (hb : pyStrip (Option.getD cfg.flow_captcha_service_base_url "") ≠ "")
    (hs : pyStrip (Option.getD cfg.flow_captcha_service_solve_path "") ≠ "")
    (hk : pyStrip (Option.getD cfg.flow_captcha_service_api_key "") ≠ "")
    (hstatus : 200 ≤ status ∧ status ≤ 299)
    (ht : transport (buildPayload pid w pa) = .response status (.parsed body))
    (herr : (jGet body "error").isDict = false)
    (hsol : ∀ v, List.lookup "solution" body = some v → v.isDict = true) :
    (∀ v, firstTruthy (tokenCandidates body) = some v →
      ∃ r, solve cfg pid w pa transport = .ok r ∧ r.token = v) ∧
    (firstTruthy (tokenCandidates body) = none →
      solve cfg pid w pa transport =
        .error (.runtimeError
          "flow captcha service error: missing token in upstream response")) := by
  have hkey := extractToken_firstTruthy body hsol
  rw [solve_eq_of_parsed cfg pid w pa transport status body hb hs hk ht]
  rw [if_neg (by omega), if_neg (by simp [herr])]
  constructor
  · intro v hv
    obtain ⟨he, htv⟩ := hkey.1 v hv
    exact ⟨{ name := SERVICE_NAME
             object := "captcha.solution"
             provider := PROVIDER
             page_action := pa
             token := v
             duration_ms := pyToInt (jGet body "duration_ms") 0
             browser_id := pyToInt (jGet body "browser_id") 0
             task_type := TASK_TYPE
             pricing := PRICING },
           by rw [he]; simp [htv], rfl⟩
  · intro hnone
    obtain ⟨u, he, hfu⟩ := hkey.2 hnone
    rw [he]
    simp [hfu]

theorem C2_ordered_token_extraction_witness :
    (∃ r, solve cfgOK (some "p1") none "A"
        (fun _ => .response 200 (.parsed [("gRecaptchaResponse", .jstr "T2")]))
      = .ok r ∧ r.token = .jstr "T2") ∧
    solve cfgOK (some "p1") none "A"
        (fun _ => .response 200 (.parsed [("status", .jstr "ok")]))
      = .error (.runtimeError
          "flow captcha service error: missing token in upstream response") :=
  ⟨(C2_ordered_token_extraction cfgOK (some "p1") none "A"
      (fun _ => .response 200 (.parsed [("gRecaptchaResponse", .jstr "T2")]))
      200 [("gRecaptchaResponse", .jstr "T2")]
      (by decide) (by decide) (by decide) (by omega) rfl (by decide)
      (fun v h => Option.noConfusion h)).1 (.jstr "T2") rfl,
   (C2_ordered_token_extraction cfgOK (some "p1") none "A"
      (fun _ => .response 200 (.parsed [("status", .jstr "ok")]))
      200 [("status", .jstr "ok")]
      (by decide) (by decide) (by decide) (by omega) rfl (by decide)
      (fun v h => Option.noConfusion h)).2 rfl⟩

/-- Claim C4: on a parsed body with status at least 400, solve fails with
the upstream-status message format; on a 2xx parsed body whose error
field is a mapping, solve fails with the bare extracted message (no
status prefix); in both cases the message follows the ordered extraction
policy, stated by specErrorMessage and proved equal to the code
extraction. -/
theorem C4_upstream_error_messages (cfg : Config) (pid w : Option String)
    (pa : String) (transport : List (String × JValue) → TransportResult)
    (status : Nat) (body : List (String × JValue))
    (hb : pyStrip (Option.getD cfg.flow_captcha_service_base_url "") ≠ "")
    (hs : pyStrip (Option.getD cfg.flow_captcha_service_solve_path "") ≠ "")
    (hk : pyStrip (Option.getD cfg.flow_captcha_service_api_key "") ≠ "")
    (ht : transport (buildPayload pid w pa) = .response status (.parsed body)) :
    (status ≥ 400 →
      solve cfg pid w pa transport =
        .error (.runtimeError
          (("flow captcha service error: upstream status "
              ++ toString status ++ ": ") ++ specErrorMessage body))) ∧
    (200 ≤ status → status ≤ 299 → (jGet body "error").isDict = true →
      solve cfg pid w pa transport =
        .error (.runtimeError
          ("flow captcha service error: " ++ specErrorMessage body))) ∧
    extract_error_message body = specErrorMessage body := by
  have heq := extract_error_message_eq_spec body
  rw [solve_eq_of_parsed cfg pid w pa transport status body hb hs hk ht]
  refine ⟨?_, ?_, heq⟩
  · intro h400
    rw [if_pos h400, heq]
  · intro h2a h2b hd
    rw [if_neg (by omega), if_pos hd, heq]

theorem C4_upstream_error_messages_witness :
    solve cfgOK (some "p1") none "A"
        (fun _ => .response 500
          (.parsed [("error", .jobj [("message", .jstr "overload")])]))
      = .error (.runtimeError
          "flow captcha service error: upstream status 500: overload") ∧
    solve cfgOK (some "p1") none "A"
        (fun _ => .response 200
          (.parsed [("error", .jobj [("error", .jstr "denied")])]))
      = .error (.runtimeError "flow captcha service error: denied") :=
  ⟨((C4_upstream_error_messages cfgOK (some "p1") none "A"
      (fun _ => .response 500
        (.parsed [("error", .jobj [("message", .jstr "overload")])]))
      500 [("error", .jobj [("message", .jstr "overload")])]
      (by decide) (by decide) (by decide) rfl).1 (by omega)).trans rfl,
   ((C4_upstream_error_messages cfgOK (some "p1") none "A"
      (fun _ => .response 200
        (.parsed [("error", .jobj [("error", .jstr "denied")])]))
      200 [("error", .jobj [("error", .jstr "denied")])]
      (by decide) (by decide) (by decide) rfl).2.1 (by omega) (by omega)
      (by decide)).trans rfl⟩

/-- Claim C7: whenever the response body fails to parse as JSON, for any
status code (the status hypothesis is absent, so the claim holds before
and regardless of the status check), solve fails with the invalid-json
message carrying the status code and a preview of at most the first 200
characters of the raw body. -/
theorem C7_invalid_json_response (cfg : Config) (pid w : Option String)
    (pa : String) (transport : List (String × JValue) → TransportResult)
    (status : Nat) (text : String)
    (hb : pyStrip (Option.getD cfg.flow_captcha_service_base_url "") ≠ "")
    (hs : pyStrip (Option.getD cfg.flow_captcha_service_solve_path "") ≠ "")
    (hk : pyStrip (Option.getD cfg.flow_captcha_service_api_key "") ≠ "")
    (ht : transport (buildPayload pid w pa) = .response status (.unparsed text)) :
    solve cfg pid w pa transport =
      .error (.runtimeError
        (("flow captcha service error: invalid json response (status="
            ++ toString status ++ "): ") ++ pySlice text 200)) ∧
    (pySlice text 200).length ≤ 200 := by
  refine ⟨solve_eq_of_unparsed cfg pid w pa transport status text hb hs hk ht, ?_⟩
  show (text.data.take 200).length ≤ 200
  rw [List.length_take]
  exact min_le_left _ _

theorem C7_invalid_json_response_witness :
    solve cfgOK (some "p1") none "A"
        (fun _ => .response 503 (.unparsed "<html>service down</html>"))
      = .error (.runtimeError
          "flow captcha service error: invalid json response (status=503): <html>service down</html>") ∧
    (pySlice "<html>service down</html>" 200).length ≤ 200 :=
  ⟨(C7_invalid_json_response cfgOK (some "p1") none "A"
      (fun _ => .response 503 (.unparsed "<html>service down</html>"))
      503 "<html>service down</html>"
      (by decide) (by decide) (by decide) rfl).1.trans rfl,
   (C7_invalid_json_response cfgOK (some "p1") none "A"
      (fun _ => .response 503 (.unparsed "<html>service down</html>"))
      503 "<html>service down</html>"
      (by decide) (by decide) (by decide) rfl).2⟩

/-- Claim C9: every RuntimeError raised by solve — transport failure,
invalid json, upstream status, 2xx logical error, missing token — has a
message beginning with the service prefix; the ValueError configuration
failures and the AttributeError are the only other outcomes. -/
theorem C9_runtime_messages_have_service_head (cfg : Config)
    (pid w : Option String) (pa : String)
    (transport : List (String × JValue) → TransportResult) (m : String)
    (h : solve cfg pid w pa transport = .error (.runtimeError m)) :
    ∃ rest, m = "flow captcha service error: " ++ rest := by
  by_cases hb : pyStrip (Option.getD cfg.flow_captcha_service_base_url "") = ""
  · rw [(C3_ordered_config_checks cfg pid w pa).1 hb transport] at h
    injection h with h1
    exact SolveException.noConfusion h1
  by_cases hs : pyStrip (Option.getD cfg.flow_captcha_service_solve_path "") = ""
  · rw [(C3_ordered_config_checks cfg pid w pa).2.1 hb hs transport] at h
    injection h with h1
    exact SolveException.noConfusion h1
  by_cases hk : pyStrip (Option.getD cfg.flow_captcha_service_api_key "") = ""
  · rw [(C3_ordered_config_checks cfg pid w pa).2.2 hb hs hk transport] at h
    injection h with h1
    exact SolveException.noConfusion h1
  rcases htr : transport (buildPayload pid w pa) with msg | ⟨status, bd⟩
  · rw [solve_eq_of_failure cfg pid w pa transport msg hb hs hk htr] at h
    injection h with h1
    injection h1 with h2
    exact ⟨"request failed: " ++ msg, by rw [← h2]; rfl⟩
  rcases bd with body | text
  · rw [solve_eq_of_parsed cfg pid w pa transport status body hb hs hk htr] at h
    by_cases h4 : status ≥ 400
    · rw [if_pos h4] at h
      injection h with h1
      injection h1 with h2
      exact ⟨("upstream status " ++ toString status ++ ": ")
          ++ extract_error_message body, by rw [← h2]; rfl⟩
    rw [if_neg h4] at h
    by_cases hd : (jGet body "error").isDict = true
    · rw [if_pos hd] at h
      injection h with h1
      injection h1 with h2
      exact ⟨extract_error_message body, by rw [← h2]⟩
    rw [if_neg hd] at h
    split at h
    next e heq =>
      have he := extractToken_error_eq body e heq
      subst he
      injection h with h1
      exact SolveException.noConfusion h1
    next tok heq =>
      by_cases htk : truthy tok = true
      · rw [if_neg (not_not_intro htk)] at h
        exact Except.noConfusion h
      · rw [if_pos htk] at h
        injection h with h1
        injection h1 with h2
        exact ⟨"missing token in upstream response", by rw [← h2]; rfl⟩
  · rw [solve_eq_of_unparsed cfg pid w pa transport status text hb hs hk htr] at h
    injection h with h1
    injection h1 with h2
    exact ⟨("invalid json response (status=" ++ toString status ++ "): ")
        ++ pySlice text 200, by rw [← h2]; rfl⟩

theorem C9_runtime_messages_have_service_head_witness :
    ∃ rest, "flow captcha service error: request failed: boom"
      = "flow captcha service error: " ++ rest :=
  C9_runtime_messages_have_service_head cfgOK none none "A"
    (fun _ => .failure "boom") "flow captcha service error: request failed: boom" rfl

/-- Claim C10: on a 2xx parsed body whose error field is not a mapping,
whose three direct token fields are all falsy, and whose solution field
is present but not a mapping, solve raises the AttributeError of the
unguarded .get on the non-mapping solution value — an exception that is
neither the ValueError of a configuration failure nor a RuntimeError. -/
theorem C10_non_mapping_solution_raises (cfg : Config) (pid w : Option String)
    (pa : String) (transport : List (String × JValue) → TransportResult)
    (status : Nat) (body : List (String × JValue)) (v : JValue)
    (hb : pyStrip (Option.getD cfg.flow_captcha_service_base_url "") ≠ "")
    (hs : pyStrip (Option.getD cfg.flow_captcha_service_solve_path "") ≠ "")
    (hk : pyStrip (Option.getD cfg.flow_captcha_service_api_key "") ≠ "")
    (hstatus : 200 ≤ status ∧ status ≤ 299)
    (ht : transport (buildPayload pid w pa) = .response status (.parsed body))
    (herr : (jGet body "error").isDict = false)
    (h1 : truthy (jGet body "token") = false)
    (h2 : truthy (jGet body "gRecaptchaResponse") = false)
    (h3 : truthy (jGet body "g_recaptcha_response") = false)
    (hsol : List.lookup "solution" body = some v)
    (hnd : v.isDict = false) :
    solve cfg pid w pa transport = .error .attributeError ∧
    (∀ msg, SolveException.attributeError ≠ .valueError msg) ∧
    (∀ msg, SolveException.attributeError ≠ .runtimeError msg) := by
  have hext : extractToken body = .error .attributeError := by
    unfold extractToken
    rw [if_neg (by simp [h1]), if_neg (by simp [h2]), if_neg (by simp [h3]), hsol]
    cases v with
    | jobj fs => simp [JValue.isDict] at hnd
    | jnull => rfl
    | jbool b => rfl
    | jnum n => rfl
    | jstr s => rfl
    | jarr xs => rfl
  refine ⟨?_, fun msg => by simp, fun msg => by simp⟩
  rw [solve_eq_of_parsed cfg pid w pa transport status body hb hs hk ht]
  rw [if_neg (by omega), if_neg (by simp [herr]), hext]

theorem C10_non_mapping_solution_raises_witness :
    solve cfgOK (some "p1") none "A"
        (fun _ => .response 200 (.parsed [("solution", .jstr "tok")]))
      = .error .attributeError :=
  (C10_non_mapping_solution_raises cfgOK (some "p1") none "A"
    (fun _ => .response 200 (.parsed [("solution", .jstr "tok")]))
    200 [("solution", .jstr "tok")] (.jstr "tok")
    (by decide) (by decide) (by decide) (by omega) rfl
    rfl rfl rfl rfl rfl rfl).1

end FlowCaptcha
